import Mathlib

/-!
Verification of the dev-server supervisor core (`src/monitor.rs`,
`src/process.rs`, `src/server.rs`) against its specification.

The embedding is a shallow one: each Rust function becomes a Lean function
over explicit inputs.  Concurrency and real time are modelled with
scheduling oracles: the sequence of outcomes that `recv_timeout` yields to
the decision loop is an explicit list of events, the child process's
`try_wait` answers are an explicit poll stream indexed by poll number, and
elapsed wall-clock time inside the termination wait loop advances by the
fixed 50 ms sleep per iteration, measured in milliseconds.
-/

namespace DevWatch

deriving instance DecidableEq for Except

/-- Whether `pat` occurs as a contiguous run starting at some suffix of
`hay` (helper for `containsSubstr`). -/
def containsSubstrList (pat : List Char) : List Char → Bool
  | [] => pat.isEmpty
  | c :: rest => pat.isPrefixOf (c :: rest) || containsSubstrList pat rest

/-- Model of Rust `str::contains` on string slices: case-sensitive
substring containment, not regex (used in `src/monitor.rs` lines 60 and 87). -/
def containsSubstr (hay pat : String) : Bool :=
  containsSubstrList pat.toList hay.toList

/-- Model of `ServerError` from `src/error.rs` lines 5-10. -/
inductive ServerError where
  | ProcessStart (msg : String)
  | IoError (msg : String)
  | ChannelError (msg : String)
  | ProcessManagement (msg : String)
  deriving Repr, DecidableEq

/-- Model of `WatchMessage` from `src/monitor.rs` lines 10-14: messages passed from
the scanner threads to the decision loop. -/
inductive WatchMessage where
  | ErrorDetected
  | IoError (msg : String)
  deriving Repr, DecidableEq

/-- The diagnostic channel a scanner echoes to: standard output for the
stdout scanner (`println!`), standard error for the stderr scanner
(`eprintln!`). -/
inductive StdChannel where
  | out
  | err
  deriving Repr, DecidableEq

/-- Visible actions of a scanner thread, in program order: echoing a line
to its diagnostic channel, and sending a `WatchMessage` on the shared
mpsc channel. -/
inductive ScanAction where
  | echo (ch : StdChannel) (line : String)
  | send (m : WatchMessage)
  deriving Repr, DecidableEq

/-- Result of running one scanner thread to completion: its action trace in
program order, the number of items it read from the stream, and the
thread's return value. -/
structure ScanRun where
  actions : List ScanAction
  consumed : Nat
  result : Except ServerError Unit
  deriving Repr, DecidableEq

/-- The scanner loop body shared verbatim by `spawn_stdout_monitor`
(`src/monitor.rs` lines 54-72) and `spawn_stderr_monitor` (lines 81-99),
differing only in the echo channel.  The input stream is the sequence of
`io::Result<String>` values produced by `BufReader::lines`.  For each
decoded line: echo it to the diagnostic channel, then test substring
containment of the error pattern; on the first containment, send
`ErrorDetected` and break out of the loop; otherwise continue.  On a read
failure, send `IoError` (result ignored) and return an `IoError` error.
Sends are modelled as succeeding (the receiving end still open). -/
def scanLoop (ch : StdChannel) (pat : String) : List (Except String String) → ScanRun
  | [] => ⟨[], 0, .ok ()⟩
  | .ok line :: rest =>
    if containsSubstr line pat then
      ⟨[.echo ch line, .send .ErrorDetected], 1, .ok ()⟩
    else
      let r := scanLoop ch pat rest
      ⟨.echo ch line :: r.actions, r.consumed + 1, r.result⟩
  | .error e :: _ => ⟨[.send (.IoError e)], 1, .error (.IoError e)⟩

/-- Model of `ProcessMonitor::spawn_stdout_monitor` (`src/monitor.rs` lines 48-73):
the scanner attached to the child's stdout, echoing via `println!`. -/
def spawn_stdout_monitor (pat : String) (stream : List (Except String String)) : ScanRun :=
  scanLoop .out pat stream

/-- Model of `ProcessMonitor::spawn_stderr_monitor` (`src/monitor.rs` lines 75-100):
the scanner attached to the child's stderr, echoing via `eprintln!`. -/
def spawn_stderr_monitor (pat : String) (stream : List (Except String String)) : ScanRun :=
  scanLoop .err pat stream

/-- Outcome of the `self.child.kill()` call inside `kill_and_wait`
(`src/process.rs` lines 66-78): delivered (`Ok`), failed with
`ErrorKind::InvalidInput` because the process had already exited (treated
as success), or failed for any other reason (a hard failure that becomes
`ProcessManagement`). -/
inductive KillSignalResult where
  | delivered
  | alreadyExited
  | hardFailure (msg : String)
  deriving Repr, DecidableEq

/-- Whether the kill-signal outcome is the hard-failure case. -/
def KillSignalResult.isHardFailure : KillSignalResult → Bool
  | .hardFailure _ => true
  | _ => false

/-- The child process as seen by `kill_and_wait`: the outcome of signal
delivery, and the stream of `try_wait` answers its wait loop will observe,
indexed by poll number (poll `k` happens after `k` sleeps of 50 ms).
An exit status is a `Nat` exit code; `0` is success. -/
structure ChildModel where
  killSignal : KillSignalResult
  killPoll : Nat → Except String (Option Nat)

/-- Instrumented outcome of `kill_and_wait` (`src/process.rs` lines 52-98):
either the wait loop observed the process exited with a status, or the
timeout elapsed and it gave up, or the kill signal hard-failed, or a
status poll itself failed. -/
inductive KWOutcome where
  | exited (status : Nat)
  | timedOut
  | killFailed (msg : String)
  | pollFailed (msg : String)
  deriving Repr, DecidableEq

/-- The `Result<()>` that `kill_and_wait` actually returns for each
outcome: `Ok` on observed exit and on timeout (lines 83-91), and a
`ProcessManagement` error on hard kill failure (line 75) or poll failure
(line 95). -/
def KWOutcome.toResult : KWOutcome → Except ServerError Unit
  | .exited _ => .ok ()
  | .timedOut => .ok ()
  | .killFailed m => .error (.ProcessManagement m)
  | .pollFailed m => .error (.ProcessManagement m)

/-- Whether the child was observed terminated (status polled as exited)
by the wait loop. -/
def KWOutcome.observedExited : KWOutcome → Bool
  | .exited _ => true
  | _ => false

/-- The wait loop of `kill_and_wait` (`src/process.rs` lines 80-97):
poll `try_wait`; on `Ok(Some(status))` return; on `Ok(None)` stop once the
elapsed time (50 ms per completed sleep, so `50 * k` at poll `k`) has
reached the timeout, else sleep 50 ms and poll again; on `Err` fail with
`ProcessManagement`.  The `fuel` argument only makes the recursion
structural: the loop stops by itself at the first poll `k` with
`50 * k ≥ timeoutMs`, which is reached before `timeoutMs / 50 + 2` polls,
so with that initial fuel the fuel-exhaustion branch is unreachable. -/
def killWaitGo (poll : Nat → Except String (Option Nat)) (timeoutMs : Nat) :
    Nat → Nat → KWOutcome
  | _, 0 => .timedOut
  | k, fuel + 1 =>
    match poll k with
    | .error e => .pollFailed e
    | .ok (some st) => .exited st
    | .ok none =>
      if 50 * k ≥ timeoutMs then .timedOut
      else killWaitGo poll timeoutMs (k + 1) fuel

/-- Model of `ProcessManager::kill_and_wait` (`src/process.rs` lines 52-98): send
the kill signal; a hard delivery failure returns `ProcessManagement`
immediately, while success or an already-exited failure proceed to the
bounded wait loop.  (The Windows-only `taskkill` call on lines 56-63 is an
external side effect with no modelled state.) -/
def kill_and_wait (child : ChildModel) (timeoutMs : Nat) : KWOutcome :=
  match child.killSignal with
  | .hardFailure msg => .killFailed msg
  | .alreadyExited => killWaitGo child.killPoll timeoutMs 0 (timeoutMs / 50 + 2)
  | .delivered => killWaitGo child.killPoll timeoutMs 0 (timeoutMs / 50 + 2)

/-- Model of `Config` from `src/config.rs` lines 4-11, with the `Duration` fields in
milliseconds.  `Config.default` holds the values of `Default::default()`
(lines 13-23). -/
structure Config where
  restart_delayMs : Nat
  error_delayMs : Nat
  process_check_intervalMs : Nat
  shutdown_timeoutMs : Nat
  error_pattern : String
  deriving Repr, DecidableEq

/-- The default configuration: 2 s restart delay, 5 s error delay, 100 ms
check interval, 5 s shutdown timeout, pattern `[Error`. -/
def Config.default : Config :=
  { restart_delayMs := 2000, error_delayMs := 5000,
    process_check_intervalMs := 100, shutdown_timeoutMs := 5000,
    error_pattern := "[Error" }

/-- One iteration's outcome of `rx.recv_timeout(process_check_interval)`
in the decision loop (`src/monitor.rs` line 108), as a scheduling oracle:
a message was pending, the interval elapsed with nothing pending (in which
case the iteration also polls `try_wait`, whose answer rides along), or
both senders were dropped with no pending message. -/
inductive RecvEvent where
  | msg (m : WatchMessage)
  | timeout (poll : Except String (Option Nat))
  | disconnected
  deriving Repr, DecidableEq

/-- Instrumented result of `wait_for_completion`: the returned
`Result<bool>` (`true` means restart needed), whether `kill_and_wait` was
invoked on this path, and its outcome when it was. -/
structure WfcResult where
  result : Except ServerError Bool
  killInvoked : Bool
  killOutcome : Option KWOutcome
  deriving Repr, DecidableEq

/-- Model of `ProcessMonitor::wait_for_completion` (`src/monitor.rs` lines 102-137)
over the oracle event list.  On `ErrorDetected` or `IoError`: call
`kill_and_wait` with `shutdown_timeout` (its error only logged) and return
`Ok(true)`.  On a receive timeout: poll `try_wait` — an `Err` propagates
(as `IoError`, via `ServerError::from` in `src/process.rs` line 49), an
exit status returns `Ok(status != 0)`, and a still-running child loops.
On disconnection: return `Ok(false)`.  `none` means the oracle list ran
out while the loop was still running. -/
def wait_for_completion (cfg : Config) (child : ChildModel) :
    List RecvEvent → Option WfcResult
  | [] => none
  | .msg .ErrorDetected :: _ =>
    some ⟨.ok true, true, some (kill_and_wait child cfg.shutdown_timeoutMs)⟩
  | .msg (.IoError _) :: _ =>
    some ⟨.ok true, true, some (kill_and_wait child cfg.shutdown_timeoutMs)⟩
  | .timeout (.error e) :: _ => some ⟨.error (.IoError e), false, none⟩
  | .timeout (.ok (some st)) :: _ => some ⟨.ok (st != 0), false, none⟩
  | .timeout (.ok none) :: rest => wait_for_completion cfg child rest
  | .disconnected :: _ => some ⟨.ok false, false, none⟩

/-- What the OS hands back on a successful spawn: the new process id, the
contents the two piped streams will produce, and the child's behaviour
under termination. -/
structure SpawnedChild where
  pid : Nat
  stdoutData : List (Except String String)
  stderrData : List (Except String String)
  child : ChildModel

/-- Model of `ProcessManager` (`src/process.rs` lines 8-10): owns the child.  The
two stream slots are `Option`s because `take_stdout`/`take_stderr` hand
them out exactly once. -/
structure ProcessManager where
  stdout : Option (List (Except String String))
  stderr : Option (List (Except String String))
  child : ChildModel

/-- Model of `ProcessManager::spawn` (`src/process.rs` lines 13-21): configure both
stdout and stderr as piped, spawn; an OS failure becomes `ProcessStart`,
success yields a manager whose both stream slots are populated. -/
def ProcessManager.spawn (os : Except String SpawnedChild) :
    Except ServerError ProcessManager :=
  match os with
  | .error e => .error (.ProcessStart e)
  | .ok c => .ok ⟨some c.stdoutData, some c.stderrData, c.child⟩

/-- Model of `ProcessManager::spawn_with_pid_handle` (`src/process.rs` lines 23-38):
like `spawn` but, on success, also stores the child's pid into the shared
single-slot cell (the `Arc<Mutex<Option<u32>>>`, modelled as explicitly
threaded state) before returning. -/
def ProcessManager.spawn_with_pid_handle (os : Except String SpawnedChild)
    (pidHandle : Option Nat) : Except ServerError ProcessManager × Option Nat :=
  match os with
  | .error e => (.error (.ProcessStart e), pidHandle)
  | .ok c => (.ok ⟨some c.stdoutData, some c.stderrData, c.child⟩, some c.pid)

/-- Model of `ProcessManager::take_stdout` (`src/process.rs` lines 40-42):
`Option::take` on the stdout slot — returns the current contents and
leaves `none` behind. -/
def ProcessManager.take_stdout (pm : ProcessManager) :
    Option (List (Except String String)) × ProcessManager :=
  (pm.stdout, { pm with stdout := none })

/-- Model of `ProcessManager::take_stderr` (`src/process.rs` lines 44-46). -/
def ProcessManager.take_stderr (pm : ProcessManager) :
    Option (List (Except String String)) × ProcessManager :=
  (pm.stderr, { pm with stderr := none })

/-- The diagnostic messages `cleanup_threads` can emit
(`src/monitor.rs` lines 144-153), one constructor per `eprintln!`. -/
inductive CleanupLog where
  | stdoutThreadError (e : ServerError)
  | stdoutThreadPanicked (msg : String)
  | stderrThreadError (e : ServerError)
  | stderrThreadPanicked (msg : String)
  deriving Repr, DecidableEq

/-- Model of `ProcessMonitor::cleanup_threads` (`src/monitor.rs` lines 139-154):
join both scanner threads; a thread that returned an error or panicked is
logged, nothing else happens.  A join result is `Except String (...)`
with the outer `error` standing for a panic payload. -/
def cleanup_threads (rOut rErr : Except String (Except ServerError Unit)) :
    List CleanupLog :=
  (match rOut with
   | .ok (.ok ()) => []
   | .ok (.error e) => [.stdoutThreadError e]
   | .error p => [.stdoutThreadPanicked p]) ++
  (match rErr with
   | .ok (.ok ()) => []
   | .ok (.error e) => [.stderrThreadError e]
   | .error p => [.stderrThreadPanicked p])

/-- Ordered milestones of one `ProcessMonitor::monitor` call: the decision
loop returned, each scanner thread was joined, the call returned. -/
inductive MonEvent where
  | decided
  | joinedStdout
  | joinedStderr
  | returned
  deriving Repr, DecidableEq

/-- Instrumented run of `ProcessMonitor::monitor`: both scanner runs, the
decision-loop result, the cleanup log, the value the call returns
(`none` while the loop is still running), and the milestone trace. -/
structure MonitorRun where
  stdoutScan : ScanRun
  stderrScan : ScanRun
  wfc : Option WfcResult
  cleanupLog : List CleanupLog
  result : Option (Except ServerError Bool)
  events : List MonEvent
  deriving Repr, DecidableEq

/-- Model of `ProcessMonitor::monitor` (`src/monitor.rs` lines 26-46): take both
streams (`expect` panics — modelled as the outer `none` — if a slot is
empty), run both scanners, run the decision loop.  The `?` on line 40
propagates a decision-loop error immediately, before `cleanup_threads`;
only on an `Ok` decision are the two scanner threads joined and then
`Ok(should_restart)` returned. -/
def ProcessMonitor.monitor (cfg : Config) (pm : ProcessManager)
    (sched : List RecvEvent) : Option MonitorRun :=
  let t1 := pm.take_stdout
  let t2 := t1.2.take_stderr
  match t1.1, t2.1 with
  | some outData, some errData =>
    let sOut := spawn_stdout_monitor cfg.error_pattern outData
    let sErr := spawn_stderr_monitor cfg.error_pattern errData
    match wait_for_completion cfg pm.child sched with
    | none => some ⟨sOut, sErr, none, [], none, []⟩
    | some d =>
      match d.result with
      | .error e => some ⟨sOut, sErr, some d, [], some (.error e), [.decided, .returned]⟩
      | .ok b =>
        some ⟨sOut, sErr, some d,
              cleanup_threads (.ok sOut.result) (.ok sErr.result),
              some (.ok b),
              [.decided, .joinedStdout, .joinedStderr, .returned]⟩
  | _, _ => none

/-- Trace events of the supervisor loop in `DevServer::run`
(`src/server.rs` lines 40-59): the attempt counter was incremented to `n`
and a new attempt announced; the loop slept `restart_delay`; the loop
slept `error_delay`; the loop broke with overall success. -/
inductive RunEvent where
  | attemptStart (n : Nat)
  | sleepRestart
  | sleepError
  | exitSuccess
  deriving Repr, DecidableEq

/-- The supervisor loop body of `DevServer::run` (`src/server.rs` lines
40-59), driven by the oracle list of per-attempt results of
`start_server_attempt`.  Each iteration first increments the counter; on
`Ok(true)` it sleeps `restart_delay` and loops, on `Ok(false)` it breaks
and `run` returns `Ok(())` (the `some ()`), on `Err` it reports and
sleeps `error_delay` and loops — with no cap on attempts.  `none` means
the oracle list ran out with the loop still running. -/
def runLoop (count : Nat) : List (Except ServerError Bool) → List RunEvent × Option Unit
  | [] => ([], none)
  | .ok true :: rest =>
    let r := runLoop (count + 1) rest
    (.attemptStart (count + 1) :: .sleepRestart :: r.1, r.2)
  | .ok false :: _ => ([.attemptStart (count + 1), .exitSuccess], some ())
  | .error _ :: rest =>
    let r := runLoop (count + 1) rest
    (.attemptStart (count + 1) :: .sleepError :: r.1, r.2)

/-- Model of `DevServer::run` (`src/server.rs` lines 26-62) after its one-time
configuration load: the supervisor loop started with `restart_count = 0`. -/
def DevServer.run (attempts : List (Except ServerError Bool)) :
    List RunEvent × Option Unit :=
  runLoop 0 attempts

/-- Model of `DevServer::start_server_attempt` (`src/server.rs` lines 64-74): build
the command, spawn it via `ProcessManager::spawn`, and delegate to the
monitor.  The shared pid cell is threaded through explicitly: this
function never references it, so it passes through unchanged. -/
def DevServer.start_server_attempt (cfg : Config) (os : Except String SpawnedChild)
    (sched : List RecvEvent) (pidHandle : Option Nat) :
    Except ServerError (Option MonitorRun) × Option Nat :=
  match ProcessManager.spawn os with
  | .error e => (.error e, pidHandle)
  | .ok pm => (.ok (ProcessMonitor.monitor cfg pm sched), pidHandle)

section Helpers

/-- A scanner over decoded lines none of which contains the pattern echoes
every line in order, consumes the whole stream, sends nothing, and ends
cleanly. -/
theorem scanLoop_noMatch (ch : StdChannel) (pat : String) (ls : List String)
    (h : ∀ x ∈ ls, containsSubstr x pat = false) :
    scanLoop ch pat (ls.map Except.ok) =
      ⟨ls.map (ScanAction.echo ch), ls.length, .ok ()⟩ := by
  induction ls with
  | nil => rfl
  | cons a as ih =>
    have ha : containsSubstr a pat = false := h a (by simp)
    have hrest : ∀ x ∈ as, containsSubstr x pat = false :=
      fun x hx => h x (by simp [hx])
    simp [scanLoop, ha, ih hrest]

/-- A scanner whose stream decodes to non-matching lines `pre`, then a
matching line `l`, then anything: it echoes `pre ++ [l]` in order, sends
`ErrorDetected` right after echoing `l`, reads exactly `pre.length + 1`
items, and ends cleanly. -/
theorem scanLoop_match (ch : StdChannel) (pat : String) (pre post : List String)
    (l : String) (hpre : ∀ x ∈ pre, containsSubstr x pat = false)
    (hl : containsSubstr l pat = true) :
    scanLoop ch pat ((pre ++ l :: post).map Except.ok) =
      ⟨((pre ++ [l]).map (ScanAction.echo ch)) ++ [.send .ErrorDetected],
        pre.length + 1, .ok ()⟩ := by
  induction pre with
  | nil => simp [scanLoop, hl]
  | cons a as ih =>
    have ha : containsSubstr a pat = false := hpre a (by simp)
    have hrest : ∀ x ∈ as, containsSubstr x pat = false :=
      fun x hx => hpre x (by simp [hx])
    have ih' := ih hrest
    simp only [List.map_append, List.map_cons] at ih'
    simp [scanLoop, ha, ih']

/-- Defining equation of `killWaitGo` for positive fuel. -/
theorem killWaitGo_succ (poll : Nat → Except String (Option Nat)) (t k n : Nat) :
    killWaitGo poll t k (n + 1) =
      (match poll k with
       | .error e => .pollFailed e
       | .ok (some st) => .exited st
       | .ok none =>
         if 50 * k ≥ t then .timedOut
         else killWaitGo poll t (k + 1) n) := rfl

/-- If every status poll answers "still running", the wait loop ends in
`timedOut` (it stops at the first poll at or past the timeout instead of
blocking). -/
theorem killWaitGo_allNone (poll : Nat → Except String (Option Nat)) (t : Nat)
    (h : ∀ j, poll j = .ok none) :
    ∀ fuel k, killWaitGo poll t k fuel = .timedOut := by
  intro fuel
  induction fuel with
  | zero => intro k; rfl
  | succ n ih =>
    intro k
    rw [killWaitGo_succ, h k]
    by_cases hc : 50 * k ≥ t
    · simp [hc]
    · simp [hc, ih (k + 1)]

/-- If the kill signal did not hard-fail and the very first status poll
already reports an exit status, `kill_and_wait` observes that exit. -/
theorem kill_and_wait_first_poll (child : ChildModel) (t st : Nat)
    (h1 : child.killSignal.isHardFailure = false)
    (h2 : child.killPoll 0 = .ok (some st)) :
    kill_and_wait child t = .exited st := by
  have hfuel : t / 50 + 2 = (t / 50 + 1) + 1 := rfl
  cases hs : child.killSignal with
  | hardFailure m => rw [hs] at h1; simp [KillSignalResult.isHardFailure] at h1
  | alreadyExited =>
    rw [kill_and_wait, hs, hfuel, killWaitGo_succ, h2]
  | delivered =>
    rw [kill_and_wait, hs, hfuel, killWaitGo_succ, h2]

/-- Decision-loop iterations in which nothing was received and the child
was polled as still running just loop: a prefix of such events does not
change the result. -/
theorem wfc_skip_quiet (cfg : Config) (child : ChildModel)
    (pre rest : List RecvEvent)
    (hpre : ∀ ev ∈ pre, ev = RecvEvent.timeout (.ok none)) :
    wait_for_completion cfg child (pre ++ rest) =
      wait_for_completion cfg child rest := by
  induction pre with
  | nil => rfl
  | cons a as ih =>
    have ha : a = RecvEvent.timeout (.ok none) := hpre a (by simp)
    have hrest : ∀ ev ∈ as, ev = RecvEvent.timeout (.ok none) :=
      fun ev hev => hpre ev (by simp [hev])
    subst ha
    simpa [wait_for_completion] using ih hrest

end Helpers

section Fixtures

/-- A child whose status polls never report exit (it ignores or outlives
the termination signal). -/
def stuckChild : ChildModel := ⟨.delivered, fun _ => .ok none⟩

/-- A child that is already exited with status 0 at every poll. -/
def exitChild : ChildModel := ⟨.delivered, fun _ => .ok (some 0)⟩

/-- A child whose kill signal fails because it had already exited
(status 7 available at every poll). -/
def exitedChildAlready : ChildModel := ⟨.alreadyExited, fun _ => .ok (some 7)⟩

/-- The default configuration with a 200 ms shutdown timeout. -/
def cexConfig : Config := { Config.default with shutdown_timeoutMs := 200 }

/-- A successful spawn: pid 42, both piped streams empty, child already
exited cleanly. -/
def cexSpawn : SpawnedChild := ⟨42, [], [], exitChild⟩

/-- A process manager whose stream slots have both already been taken. -/
def brokenPm : ProcessManager := ⟨none, none, exitChild⟩

/-- A freshly spawned manager for `cexSpawn`. -/
def goodPm : ProcessManager := ⟨some [], some [], exitChild⟩

end Fixtures

/-- Claim C1 (corrected), counterexample to the claim as stated: the
stdout scanner reports `ErrorDetected` for the line `[Error]: boom`,
which contains the configured pattern `[Error`; the decision loop
receives it, invokes `kill_and_wait`, and returns restart-needed — but
the child never answers a status poll with an exit status, so
`kill_and_wait` gives up at the 200 ms timeout and `observe` returns
with the child never observed terminated. -/
theorem c1_counterexample :
    (spawn_stdout_monitor cexConfig.error_pattern [.ok "[Error]: boom"]).actions =
      [.echo .out "[Error]: boom", .send .ErrorDetected] ∧
    wait_for_completion cexConfig stuckChild [.msg .ErrorDetected] =
      some ⟨.ok true, true, some .timedOut⟩ ∧
    KWOutcome.observedExited .timedOut = false := by
  refine ⟨by decide, by decide, rfl⟩

/-- Claim C1 (amended): when the decision loop receives `ErrorDetected`
(after any number of quiet iterations), it invokes `kill_and_wait` with
the shutdown timeout and returns restart-needed; the child is observed
terminated before the return whenever the kill signal did not hard-fail
and a status poll reports the exit — in particular when the process is
already exited at the first poll — but on poll timeout the call still
returns restart-needed without having observed the exit. -/
theorem c1_amended (cfg : Config) (child : ChildModel) (pre rest : List RecvEvent)
    (hpre : ∀ ev ∈ pre, ev = RecvEvent.timeout (.ok none)) :
    wait_for_completion cfg child (pre ++ .msg .ErrorDetected :: rest) =
      some ⟨.ok true, true, some (kill_and_wait child cfg.shutdown_timeoutMs)⟩ ∧
    (∀ st, child.killSignal.isHardFailure = false →
      child.killPoll 0 = .ok (some st) →
      (kill_and_wait child cfg.shutdown_timeoutMs).observedExited = true) := by
  constructor
  · rw [wfc_skip_quiet cfg child pre _ hpre]; rfl
  · intro st hf hp
    rw [kill_and_wait_first_poll child _ st hf hp]; rfl

/-- Witness for C1 (amended) at a concrete input: one `ErrorDetected`
event, a child already exited with status 0. -/
theorem c1_amended_witness :
    wait_for_completion cexConfig exitChild [RecvEvent.msg .ErrorDetected] =
      some ⟨.ok true, true, some (kill_and_wait exitChild cexConfig.shutdown_timeoutMs)⟩ ∧
    (∀ st, exitChild.killSignal.isHardFailure = false →
      exitChild.killPoll 0 = .ok (some st) →
      (kill_and_wait exitChild cexConfig.shutdown_timeoutMs).observedExited = true) :=
  c1_amended cexConfig exitChild [] [] (by simp)

/-- Claim C2: after any number of quiet iterations with no error message,
once the child is polled as exited with status `st` the decision loop
returns `Ok(st != 0)` — clean exit exactly when the status is the
success status `0`, restart-needed exactly when it is non-zero — without
invoking termination. -/
theorem c2_exit_status_decides (cfg : Config) (child : ChildModel)
    (pre rest : List RecvEvent) (st : Nat)
    (hpre : ∀ ev ∈ pre, ev = RecvEvent.timeout (.ok none)) :
    wait_for_completion cfg child (pre ++ .timeout (.ok (some st)) :: rest) =
      some ⟨.ok (st != 0), false, none⟩ := by
  rw [wfc_skip_quiet cfg child pre _ hpre]; rfl

/-- Witness for C2: one quiet iteration, then exit status 0 yields a clean
(no-restart) decision. -/
theorem c2_witness :
    wait_for_completion Config.default exitChild
        ([RecvEvent.timeout (.ok none)] ++ RecvEvent.timeout (.ok (some 0)) :: []) =
      some ⟨.ok false, false, none⟩ :=
  c2_exit_status_decides Config.default exitChild [RecvEvent.timeout (.ok none)] [] 0
    (by simp)

/-- Claim C3: on any stream of decoded lines, each scanner echoes every
decoded line to its own diagnostic channel (standard output for the
stdout scanner, standard error for the stderr scanner) before the match
check — the echo of the matching line precedes the send in the action
trace — and at the first line containing the pattern it sends
`ErrorDetected` and stops, having read exactly the lines up to and
including the match; a stream with no matching line is echoed in full
with nothing sent. -/
theorem c3_scanner_echo_and_stop (pat : String) (pre post : List String) (l : String)
    (hpre : ∀ x ∈ pre, containsSubstr x pat = false)
    (hl : containsSubstr l pat = true) :
    spawn_stdout_monitor pat ((pre ++ l :: post).map Except.ok) =
      ⟨((pre ++ [l]).map (ScanAction.echo .out)) ++ [.send .ErrorDetected],
        pre.length + 1, .ok ()⟩ ∧
    spawn_stderr_monitor pat ((pre ++ l :: post).map Except.ok) =
      ⟨((pre ++ [l]).map (ScanAction.echo .err)) ++ [.send .ErrorDetected],
        pre.length + 1, .ok ()⟩ ∧
    (∀ ls : List String, (∀ x ∈ ls, containsSubstr x pat = false) →
      spawn_stdout_monitor pat (ls.map Except.ok) =
        ⟨ls.map (ScanAction.echo .out), ls.length, .ok ()⟩ ∧
      spawn_stderr_monitor pat (ls.map Except.ok) =
        ⟨ls.map (ScanAction.echo .err), ls.length, .ok ()⟩) :=
  ⟨scanLoop_match .out pat pre post l hpre hl,
   scanLoop_match .err pat pre post l hpre hl,
   fun ls h => ⟨scanLoop_noMatch .out pat ls h, scanLoop_noMatch .err pat ls h⟩⟩

/-- Witness for C3: the spec's own scenario — pattern `[Error`, lines
`Server ready` then `[Error]: boom`, with a further line that is never
read. -/
theorem c3_witness :
    spawn_stdout_monitor "[Error" ((["Server ready"] ++ "[Error]: boom" :: ["later"]).map Except.ok) =
      ⟨(((["Server ready"] : List String) ++ ["[Error]: boom"]).map (ScanAction.echo .out)) ++
        [.send .ErrorDetected], 2, .ok ()⟩ ∧
    spawn_stderr_monitor "[Error" ((["Server ready"] ++ "[Error]: boom" :: ["later"]).map Except.ok) =
      ⟨(((["Server ready"] : List String) ++ ["[Error]: boom"]).map (ScanAction.echo .err)) ++
        [.send .ErrorDetected], 2, .ok ()⟩ ∧
    (∀ ls : List String, (∀ x ∈ ls, containsSubstr x "[Error" = false) →
      spawn_stdout_monitor "[Error" (ls.map Except.ok) =
        ⟨ls.map (ScanAction.echo .out), ls.length, .ok ()⟩ ∧
      spawn_stderr_monitor "[Error" (ls.map Except.ok) =
        ⟨ls.map (ScanAction.echo .err), ls.length, .ok ()⟩) :=
  c3_scanner_echo_and_stop "[Error" ["Server ready"] ["later"] "[Error]: boom"
    (by decide) (by decide)

/-- Claim C4: calling `kill_and_wait` on a process that has already exited
returns success, not a `ProcessManagement` error — in particular when the
kill signal itself fails because the process is gone
(`ErrorKind::InvalidInput`), that failure is treated as success and the
wait loop immediately observes the recorded exit status. -/
theorem c4_already_exited_ok (child : ChildModel) (t st : Nat)
    (h1 : child.killSignal = .alreadyExited ∨ child.killSignal = .delivered)
    (h2 : child.killPoll 0 = .ok (some st)) :
    kill_and_wait child t = .exited st ∧
    (kill_and_wait child t).toResult = .ok () := by
  have h1' : child.killSignal.isHardFailure = false := by
    rcases h1 with h | h <;> rw [h] <;> rfl
  have hx := kill_and_wait_first_poll child t st h1' h2
  exact ⟨hx, by rw [hx]; rfl⟩

/-- Witness for C4: signal delivery failed with the already-exited kind,
first poll reports status 7, and the call returns `Ok`. -/
theorem c4_witness :
    kill_and_wait exitedChildAlready 5000 = .exited 7 ∧
    (kill_and_wait exitedChildAlready 5000).toResult = .ok () :=
  c4_already_exited_ok exitedChildAlready 5000 7 (Or.inl rfl) rfl

/-- Claim C5: if the process is never observed exited, `kill_and_wait`
polls at its fixed 50 ms interval only until the elapsed time reaches the
caller-supplied timeout, then gives up with `timedOut` and returns
success (`Ok`) rather than an error or blocking indefinitely. -/
theorem c5_timeout_gives_up (child : ChildModel) (t : Nat)
    (h1 : child.killSignal.isHardFailure = false)
    (h2 : ∀ k, child.killPoll k = .ok none) :
    kill_and_wait child t = .timedOut ∧
    (kill_and_wait child t).toResult = .ok () := by
  have hx : kill_and_wait child t = .timedOut := by
    cases hs : child.killSignal with
    | hardFailure m => rw [hs] at h1; simp [KillSignalResult.isHardFailure] at h1
    | alreadyExited => rw [kill_and_wait, hs]; exact killWaitGo_allNone _ _ h2 _ _
    | delivered => rw [kill_and_wait, hs]; exact killWaitGo_allNone _ _ h2 _ _
  exact ⟨hx, by rw [hx]; rfl⟩

/-- Witness for C5: the spec's scenario 7 — 200 ms timeout against a
process that never reports exited; the call returns `Ok` after timing
out. -/
theorem c5_witness :
    kill_and_wait stuckChild 200 = .timedOut ∧
    (kill_and_wait stuckChild 200).toResult = .ok () :=
  c5_timeout_gives_up stuckChild 200 rfl (fun _ => rfl)

/-- Claim C6: per supervisor-loop iteration the attempt counter is
incremented before the spawn attempt is announced; a failed attempt logs
and sleeps `error_delay` then loops, a restart-needed outcome sleeps
`restart_delay` then loops, a clean exit stops the loop with overall
success; and there is no cap on attempts — any number of consecutive
failures leaves the loop still running. -/
theorem c6_supervisor_loop (count n : Nat) (rest : List (Except ServerError Bool))
    (msg : String) :
    runLoop count (.error (.ProcessStart msg) :: rest) =
      (.attemptStart (count + 1) :: .sleepError :: (runLoop (count + 1) rest).1,
        (runLoop (count + 1) rest).2) ∧
    runLoop count (.ok true :: rest) =
      (.attemptStart (count + 1) :: .sleepRestart :: (runLoop (count + 1) rest).1,
        (runLoop (count + 1) rest).2) ∧
    runLoop count (.ok false :: rest) =
      ([.attemptStart (count + 1), .exitSuccess], some ()) ∧
    (DevServer.run (List.replicate n (.error (.ProcessStart msg)))).2 = none := by
  refine ⟨rfl, rfl, rfl, ?_⟩
  have hnc : ∀ m c, (runLoop c (List.replicate m (.error (.ProcessStart msg)))).2 = none := by
    intro m
    induction m with
    | zero => intro c; rfl
    | succ k ih => intro c; exact ih (c + 1)
  exact hnc n 0

/-- Claim C7 (corrected), counterexample to the claim as stated: when the
decision loop itself fails (a status poll error), the `?` on
`src/monitor.rs` line 40 propagates the error before `cleanup_threads`
runs, so `monitor` returns without joining either scanner thread — the
milestone trace has no join events. -/
theorem c7_counterexample :
    ProcessMonitor.monitor Config.default goodPm
        [.timeout (.error "status poll failed")] =
      some ⟨⟨[], 0, .ok ()⟩, ⟨[], 0, .ok ()⟩,
            some ⟨.error (.IoError "status poll failed"), false, none⟩,
            [], some (.error (.IoError "status poll failed")),
            [.decided, .returned]⟩ ∧
    MonEvent.joinedStdout ∉ [MonEvent.decided, MonEvent.returned] := by
  exact ⟨rfl, by decide⟩

/-- Claim C7 (amended): whenever the decision loop returns an `Ok`
outcome, both scanner threads are joined before `monitor` returns (the
milestone trace is decide, join stdout, join stderr, return), the cleanup
log is exactly what `cleanup_threads` produces from the two join results,
the returned value is the decided outcome regardless of what the scanner
threads did (replacing both stream contents leaves the result unchanged),
and a scanner thread that panicked or returned an error is logged by
`cleanup_threads`; only when the decision loop itself fails does `monitor`
return that error without joining. -/
theorem c7_amended (cfg : Config) (pm : ProcessManager) (sched : List RecvEvent)
    (o e : List (Except String String)) (d : WfcResult) (b : Bool)
    (h1 : pm.stdout = some o) (h2 : pm.stderr = some e)
    (hd : wait_for_completion cfg pm.child sched = some d)
    (hb : d.result = .ok b) :
    ∃ run, ProcessMonitor.monitor cfg pm sched = some run ∧
      run.result = some (.ok b) ∧
      run.events = [.decided, .joinedStdout, .joinedStderr, .returned] ∧
      run.cleanupLog =
        cleanup_threads (.ok run.stdoutScan.result) (.ok run.stderrScan.result) ∧
      (∀ o' e', Option.map MonitorRun.result
          (ProcessMonitor.monitor cfg ⟨some o', some e', pm.child⟩ sched) =
        some (some (.ok b))) ∧
      (∀ p r2, CleanupLog.stdoutThreadPanicked p ∈ cleanup_threads (.error p) r2) ∧
      (∀ e2 r1, CleanupLog.stderrThreadError e2 ∈ cleanup_threads r1 (.ok (.error e2))) := by
  obtain ⟨so, se, ch⟩ := pm
  dsimp only at h1 h2 hd
  subst h1; subst h2
  have hm : ∀ o' e', ProcessMonitor.monitor cfg ⟨some o', some e', ch⟩ sched =
      some ⟨spawn_stdout_monitor cfg.error_pattern o',
            spawn_stderr_monitor cfg.error_pattern e',
            some d,
            cleanup_threads (.ok (spawn_stdout_monitor cfg.error_pattern o').result)
              (.ok (spawn_stderr_monitor cfg.error_pattern e').result),
            some (.ok b), [.decided, .joinedStdout, .joinedStderr, .returned]⟩ := by
    intro o' e'
    unfold ProcessMonitor.monitor
    simp [ProcessManager.take_stdout, ProcessManager.take_stderr, hd, hb]
  refine ⟨_, hm o e, rfl, rfl, rfl, ?_, ?_, ?_⟩
  · intro o' e'
    rw [hm o' e']
    rfl
  · intro p r2
    simp [cleanup_threads]
  · intro e2 r1
    cases r1 with
    | error p => simp [cleanup_threads]
    | ok r =>
      cases r with
      | error e3 => simp [cleanup_threads]
      | ok u => cases u; simp [cleanup_threads]

/-- Witness for C7 (amended): both streams empty, the decision loop sees a
disconnection and decides a clean exit. -/
theorem c7_amended_witness :
    ∃ run, ProcessMonitor.monitor Config.default goodPm [RecvEvent.disconnected] =
        some run ∧
      run.result = some (.ok false) ∧
      run.events = [.decided, .joinedStdout, .joinedStderr, .returned] ∧
      run.cleanupLog =
        cleanup_threads (.ok run.stdoutScan.result) (.ok run.stderrScan.result) ∧
      (∀ o' e', Option.map MonitorRun.result
          (ProcessMonitor.monitor Config.default ⟨some o', some e', goodPm.child⟩
            [RecvEvent.disconnected]) = some (some (.ok false))) ∧
      (∀ p r2, CleanupLog.stdoutThreadPanicked p ∈ cleanup_threads (.error p) r2) ∧
      (∀ e2 r1, CleanupLog.stderrThreadError e2 ∈ cleanup_threads r1 (.ok (.error e2))) :=
  c7_amended Config.default goodPm [RecvEvent.disconnected] [] []
    ⟨.ok false, false, none⟩ false rfl rfl rfl rfl

/-- Claim C8: if the event conduit reports permanent disconnection (both
scanner threads finished and dropped their senders with no pending
message), the decision loop — after any number of quiet iterations —
returns `Ok(false)`, i.e. a clean exit, rather than looping forever. -/
theorem c8_disconnect_clean_exit (cfg : Config) (child : ChildModel)
    (pre rest : List RecvEvent)
    (hpre : ∀ ev ∈ pre, ev = RecvEvent.timeout (.ok none)) :
    wait_for_completion cfg child (pre ++ .disconnected :: rest) =
      some ⟨.ok false, false, none⟩ := by
  rw [wfc_skip_quiet cfg child pre _ hpre]; rfl

/-- Witness for C8: one quiet iteration, then disconnection. -/
theorem c8_witness :
    wait_for_completion Config.default exitChild
        ([RecvEvent.timeout (.ok none)] ++ RecvEvent.disconnected :: []) =
      some ⟨.ok false, false, none⟩ :=
  c8_disconnect_clean_exit Config.default exitChild [RecvEvent.timeout (.ok none)] []
    (by simp)

/-- Claim C9 (corrected), counterexample to the claim as stated: the
supervisor's `start_server_attempt` spawns via plain
`ProcessManager::spawn`, which never touches the shared pid cell — after
a successful spawn of a child with pid 42 the cell still holds nothing —
whereas `spawn_with_pid_handle` (which no supervisor code calls) would
have published 42. -/
theorem c9_counterexample :
    (DevServer.start_server_attempt Config.default (.ok cexSpawn) [] none).2 = none ∧
    cexSpawn.pid = 42 ∧
    (ProcessManager.spawn_with_pid_handle (.ok cexSpawn) none).2 = some 42 :=
  ⟨rfl, rfl, rfl⟩

/-- Claim C9 (amended): `ProcessManager::spawn_with_pid_handle` does, on
every successful spawn, publish the new child's pid to the shared
single-slot cell before returning the manager; but the Supervisor Loop's
`start_server_attempt` uses plain `spawn` and leaves the cell exactly as
it found it, so no pid is published during the supervisor's spawns. -/
theorem c9_amended (os : Except String SpawnedChild) (c : SpawnedChild)
    (slot : Option Nat) (h : os = .ok c) :
    (ProcessManager.spawn_with_pid_handle os slot).2 = some c.pid ∧
    (ProcessManager.spawn_with_pid_handle os slot).1 =
      .ok ⟨some c.stdoutData, some c.stderrData, c.child⟩ ∧
    (∀ cfg sched slot',
      (DevServer.start_server_attempt cfg os sched slot').2 = slot') := by
  subst h
  exact ⟨rfl, rfl, fun cfg sched slot' => rfl⟩

/-- Witness for C9 (amended) at the concrete spawn of pid 42. -/
theorem c9_amended_witness :
    (ProcessManager.spawn_with_pid_handle (.ok cexSpawn) none).2 = some cexSpawn.pid ∧
    (ProcessManager.spawn_with_pid_handle (.ok cexSpawn) none).1 =
      .ok ⟨some cexSpawn.stdoutData, some cexSpawn.stderrData, cexSpawn.child⟩ ∧
    (∀ cfg sched slot',
      (DevServer.start_server_attempt cfg (.ok cexSpawn) sched slot').2 = slot') :=
  c9_amended (.ok cexSpawn) cexSpawn none rfl

/-- Claim C10: `monitor` needs exclusive first access to the child's
output streams — if either stream slot is empty it panics (the `expect`,
modelled as `none`) instead of returning an error; taking a stream twice
yields nothing the second time; and for a manager freshly created by
`ProcessManager::spawn` both slots are piped and populated, so the first
take of each succeeds and `monitor` does not panic. -/
theorem c10_stream_ownership (cfg : Config) (sched : List RecvEvent)
    (os : Except String SpawnedChild) (c : SpawnedChild) (pmB : ProcessManager)
    (hos : os = .ok c) (hB : pmB.stdout = none ∨ pmB.stderr = none) :
    ProcessMonitor.monitor cfg pmB sched = none ∧
    (∀ pm : ProcessManager, ((pm.take_stdout).2.take_stdout).1 = none ∧
      ((pm.take_stderr).2.take_stderr).1 = none) ∧
    (∃ pm, ProcessManager.spawn os = .ok pm ∧
      pm.take_stdout.1 = some c.stdoutData ∧
      pm.take_stderr.1 = some c.stderrData ∧
      (ProcessMonitor.monitor cfg pm sched).isSome = true) := by
  subst hos
  refine ⟨?_, fun pm => ⟨rfl, rfl⟩, ⟨_, rfl, rfl, rfl, ?_⟩⟩
  · obtain ⟨so, se, ch⟩ := pmB
    dsimp only at hB
    rcases hB with h | h
    · subst h; cases se <;> rfl
    · subst h; cases so <;> rfl
  · cases hw : wait_for_completion cfg c.child sched with
    | none =>
      simp [ProcessMonitor.monitor, ProcessManager.take_stdout,
        ProcessManager.take_stderr, hw]
    | some d =>
      cases hr : d.result <;>
        simp [ProcessMonitor.monitor, ProcessManager.take_stdout,
          ProcessManager.take_stderr, hw, hr]

/-- Witness for C10: the fresh spawn of `cexSpawn` against a manager whose
slots were both already taken. -/
theorem c10_witness :
    ProcessMonitor.monitor Config.default brokenPm [] = none ∧
    (∀ pm : ProcessManager, ((pm.take_stdout).2.take_stdout).1 = none ∧
      ((pm.take_stderr).2.take_stderr).1 = none) ∧
    (∃ pm, ProcessManager.spawn (.ok cexSpawn) = .ok pm ∧
      pm.take_stdout.1 = some cexSpawn.stdoutData ∧
      pm.take_stderr.1 = some cexSpawn.stderrData ∧
      (ProcessMonitor.monitor Config.default pm []).isSome = true) :=
  c10_stream_ownership Config.default [] (.ok cexSpawn) cexSpawn brokenPm rfl
    (Or.inl rfl)

end DevWatch
